import Mathlib

/-!
Verification of the cloudquery target-store readiness gate
(pkg/core/database/postgres/executor.go) and the provider source resolver
(pkg/core/core.go), as a shallow embedding in Lean.

A store connection is modelled by the outcome each of its fallible
operations would produce (ping, identity query, status query, pool
acquire, version-banner query); the gate functions are translated from
the Go source over that model.  Go contexts are modelled by their
explicit timeout, and each executed database operation is recorded in a
trace together with the timeout of the context it ran under.
-/

deriving instance DecidableEq for Except

namespace CloudQuery

/-- Split a character list at every character satisfying `p`; the resulting
segments exclude the separators and may be empty. -/
def splitByAux (p : Char → Bool) : List Char → List Char → List (List Char)
  | [], acc => [acc.reverse]
  | x :: xs, acc =>
    if p x then acc.reverse :: splitByAux p xs []
    else splitByAux p xs (x :: acc)

/-- Split a string at every character satisfying `p` (kernel-reducible model
of Go string splitting). -/
def splitBy (p : Char → Bool) (s : String) : List String :=
  (splitByAux p s.toList []).map String.mk

/-- Go `strings.TrimSpace`: drop leading and trailing whitespace. -/
def stringTrim (s : String) : String :=
  String.mk
    (((s.toList.dropWhile Char.isWhitespace).reverse.dropWhile
        Char.isWhitespace).reverse)

/-- Parse a non-empty all-digit string as a natural number. -/
def digitsToNat? (s : String) : Option Nat :=
  let l := s.toList
  if l.isEmpty then none
  else if l.all Char.isDigit then
    some (l.foldl (fun n c => n * 10 + (c.toNat - 48)) 0)
  else none

/-- Modelled from the spec: `model.DatabaseInfo` (pkg/core/database/model is not
under src/); the spec calls it StoreStatus, with a version string, an uptime in
whole seconds, and the full version banner string. -/
structure DatabaseInfo where
  Version : String
  Uptime : Int
  FullVersion : String
deriving Repr, DecidableEq

/-- The errors produced or forwarded by the embedded code.  `sdkErr` stands for
any error coming out of the SDK connection layer (connect, ping, a query, or a
pool acquire); the remaining constructors mirror the `fmt.Errorf` values built
in executor.go, and the parse failure of the external libraries. -/
inductive GoError where
  | sdkErr (msg : String)
  | unsupportedVersion (got want : List Nat)
  | unparsableVersionOutput (banner : String)
  | malformedVersion (s : String)
  | wrappedVersionErr (inner : GoError)
  | invalidProviderReference (s : String)
deriving Repr, DecidableEq

/-- A store connection, modelled by the outcome of each operation the gate can
issue on it.  `none` means success for the operations returning only an error. -/
structure Conn where
  pingResult : Option GoError
  databaseIdResult : Except GoError String
  databaseInfoResult : Except GoError DatabaseInfo
  acquireResult : Option GoError
  versionBanner : Except GoError String
deriving Repr, DecidableEq

/-- A Go context, modelled by its explicit timeout (in seconds), if any. -/
structure Context where
  timeoutSeconds : Option Nat
deriving Repr, DecidableEq

/-- `context.WithTimeout`: the child context carries the explicit timeout. -/
def contextWithTimeout (_ctx : Context) (secs : Nat) : Context :=
  { timeoutSeconds := some secs }

/-- One database operation executed by the gate, recording the explicit timeout
(in seconds) of the context it was issued under. -/
inductive Op where
  | connect (t : Option Nat)
  | ping (t : Option Nat)
  | queryDatabaseId (t : Option Nat)
  | queryDatabaseInfo (t : Option Nat)
  | acquire (t : Option Nat)
  | queryVersion (t : Option Nat)
deriving Repr, DecidableEq

/-- The explicit timeout an operation ran under. -/
def Op.timeout : Op → Option Nat
  | .connect t => t
  | .ping t => t
  | .queryDatabaseId t => t
  | .queryDatabaseInfo t => t
  | .acquire t => t
  | .queryVersion t => t

/-- Whether an operation is the liveness ping. -/
def Op.isPing : Op → Bool
  | .ping _ => true
  | _ => false

/-- Go `strings.Fields`: split around runs of whitespace, dropping empties. -/
def stringFields (s : String) : List String :=
  (splitBy Char.isWhitespace s).filter (fun t => !(t == ""))

/-- Modelled from the spec: version parsing of the external hashicorp
go-version library (not under src/).  Section 3 of the spec defines a Version
as a dot-delimited ordered tuple of integers; parsing fails with
MalformedVersion if the string is empty after whitespace trimming or some
dot-separated component is not numeric. -/
def parseVersion (s : String) : Except GoError (List Nat) :=
  let t := stringTrim s
  if t == "" then .error (.malformedVersion s)
  else
    match (splitBy (· == '.') t).mapM digitsToNat? with
    | some ns => .ok ns
    | none => .error (.malformedVersion s)

/-- Modelled from the spec: version comparison of the external hashicorp
go-version library — compare the numeric components left to right; missing
trailing components are treated as zero. -/
def versionCompare : List Nat → List Nat → Ordering
  | [], [] => .eq
  | [], bs => if bs.all (· == 0) then .eq else .lt
  | as, [] => if as.all (· == 0) then .eq else .gt
  | a :: as, b :: bs =>
    if a < b then .lt else if b < a then .gt else versionCompare as bs

/-- `got.LessThan(want)` of the external version library. -/
def versionLessThan (a b : List Nat) : Bool :=
  versionCompare a b == .lt

/-- `MinPostgresVersion = version.Must(version.NewVersion("10.0"))`. -/
def MinPostgresVersion : List Nat :=
  ((parseVersion "10.0").toOption).getD []

/-- `GetDatabaseId`: runs the system-identifier query; on error the Go result
string keeps its zero value. -/
def GetDatabaseId (q : Conn) : String × Option GoError :=
  match q.databaseIdResult with
  | .ok result => (result, none)
  | .error err => ("", some err)

/-- `GetDatabaseInfo`: runs the status query; on error returns the sentinel. -/
def GetDatabaseInfo (q : Conn) : DatabaseInfo :=
  match q.databaseInfoResult with
  | .ok result => result
  | .error _ => { Version := "unknown", Uptime := 0, FullVersion := "unknown" }

/-- `runningPostgresVersion`: query the banner with `SELECT version()`, demand
at least two whitespace-delimited fields, and parse `fields[1]`. -/
def runningPostgresVersion (q : Conn) : Except GoError (List Nat) :=
  match q.versionBanner with
  | .error err => .error err
  | .ok result =>
    let fields := stringFields result
    if fields.length < 2 then .error (.unparsableVersionOutput result)
    else parseVersion (fields.getD 1 "")

/-- `doValidatePostgresVersion`: wrap a retrieval error, otherwise error iff
the running version is below the wanted one. -/
def doValidatePostgresVersion (q : Conn) (want : List Nat) : Option GoError :=
  match runningPostgresVersion q with
  | .error err => some (.wrappedVersionErr err)
  | .ok got =>
    if versionLessThan got want then some (.unsupportedVersion got want)
    else none

/-- `ValidatePostgresVersion`: acquire a connection from the pool (its release
is deferred), then run `doValidatePostgresVersion` against
`MinPostgresVersion`.  Also returns the trace of operations performed. -/
def ValidatePostgresVersion (ctx : Context) (pool : Conn) :
    Option GoError × List Op :=
  match pool.acquireResult with
  | some err => (some err, [.acquire ctx.timeoutSeconds])
  | none =>
    (doValidatePostgresVersion pool MinPostgresVersion,
     [.acquire ctx.timeoutSeconds, .queryVersion ctx.timeoutSeconds])

/-- The fixed liveness-probe timeout: `time.Second*10`. -/
def pingTimeoutSeconds : Nat := 10

/-- Outcome of `ValidatePostgresConnection`: the ping error (if any), the ping
operation with the timeout of the derived context, and whether the derived
context was cancelled on exit (the Go code defers `cancel()`, so every exit
path cancels). -/
structure ProbeOutcome where
  err : Option GoError
  pingOp : Op
  cancelled : Bool
deriving Repr, DecidableEq

/-- `ValidatePostgresConnection`: derive a child context with a 10-second
timeout, ping the pool under it, and cancel the child on exit. -/
def ValidatePostgresConnection (ctx : Context) (pool : Conn) : ProbeOutcome :=
  let child := contextWithTimeout ctx pingTimeoutSeconds
  { err := pool.pingResult
    pingOp := .ping child.timeoutSeconds
    cancelled := true }

/-- The `Executor` struct: dsn plus the cached identity and status fields. -/
structure Executor where
  dsn : String
  dbId : String
  info : DatabaseInfo
deriving Repr, DecidableEq

/-- `New(dsn)`: only dsn is set; dbId and info keep their Go zero values. -/
def New (dsn : String) : Executor :=
  { dsn := dsn
    dbId := ""
    info := { Version := "", Uptime := 0, FullVersion := "" } }

/-- `Executor.Validate`: connect, ping, fetch identity and status (their
errors deferred or swallowed), then check the version.  Returns the Go result
pair `(bool, error)`, the executor with its cached fields updated, and the
trace of operations attempted. -/
def Executor.Validate (ctx : Context) (connect : String → Except GoError Conn)
    (e : Executor) : (Bool × Option GoError) × Executor × List Op :=
  match connect e.dsn with
  | .error err => ((false, some err), e, [.connect ctx.timeoutSeconds])
  | .ok pool =>
    let probe := ValidatePostgresConnection ctx pool
    match probe.err with
    | some err =>
      ((false, some err), e, [.connect ctx.timeoutSeconds, probe.pingOp])
    | none =>
      let idRes := GetDatabaseId pool
      let dbIdErr := idRes.2
      let e1 : Executor := { e with dbId := idRes.1 }
      let e2 : Executor := { e1 with info := GetDatabaseInfo pool }
      let vres := ValidatePostgresVersion ctx pool
      let trace := [Op.connect ctx.timeoutSeconds, probe.pingOp,
          Op.queryDatabaseId ctx.timeoutSeconds,
          Op.queryDatabaseInfo ctx.timeoutSeconds] ++ vres.2
      match vres.1 with
      | some err => ((true, some err), e2, trace)
      | none => ((true, dbIdErr), e2, trace)

/-- `Executor.Info`: return the cached status, never an error. -/
def Executor.Info (e : Executor) : DatabaseInfo × Option GoError :=
  (e.info, none)

/-- `Executor.Identifier`: report the cached dbId and its presence; no query. -/
def Executor.Identifier (e : Executor) : String × Bool :=
  if e.dbId == "" then ("", false) else (e.dbId, true)

/-- `config.RequiredProvider`, restricted to the fields the resolver reads. -/
structure RequiredProvider where
  Name : String
  Source : Option String
deriving Repr, DecidableEq

/-- Modelled from the spec: the default organization a bare provider name
resolves to in the downstream registry (the spec writes `<default-org>`). -/
def defaultOrganization : String := "cloudquery"

/-- Modelled from the spec: the normalized-identifier convention of the
registry — lowercase alphanumeric plus hyphen, non-empty. -/
def isNormalizedIdent (s : String) : Bool :=
  !(s == "") && s.toList.all (fun c => c.isLower || c.isDigit || c == '-')

/-- Modelled from the spec: `registry.ParseProviderName` (pkg/plugin/registry
is not under src/) — split on the separator; a bare name resolves to the
default organization; fail with InvalidProviderReference if the string has
more than one separator or either half is empty or has disallowed chars. -/
def ParseProviderName (s : String) : Except GoError (String × String) :=
  match splitBy (· == '/') s with
  | [name] =>
    if isNormalizedIdent name then .ok (defaultOrganization, name)
    else .error (.invalidProviderReference s)
  | [org, name] =>
    if isNormalizedIdent org && isNormalizedIdent name then .ok (org, name)
    else .error (.invalidProviderReference s)
  | _ => .error (.invalidProviderReference s)

/-- `ParseProviderSource`: compute the effective source string from the
requested source and the provider name, then hand it to the registry parser. -/
def ParseProviderSource (rp : RequiredProvider) :
    Except GoError (String × String) :=
  let requestedSource :=
    match rp.Source with
    | none => rp.Name
    | some s =>
      if s == "" then rp.Name
      else if s.toList.contains '/' then s
      else s ++ "/" ++ rp.Name
  ParseProviderName requestedSource

/-- A context with no explicit timeout (a plain ambient `context.Context`). -/
def ambientCtx : Context := { timeoutSeconds := none }

/-- A connection on which every operation succeeds, running version 13.4. -/
def okConn : Conn :=
  { pingResult := none
    databaseIdResult := .ok "7001"
    databaseInfoResult := .ok
      { Version := "13.4", Uptime := 5, FullVersion := "PostgreSQL 13.4 on x86" }
    acquireResult := none
    versionBanner := .ok "PostgreSQL 13.4 on x86" }

/-- `okConn` with a given version banner. -/
def bannerConn (b : String) : Conn := { okConn with versionBanner := .ok b }

/-- `okConn` with a failing identity query. -/
def idErrConn : Conn :=
  { okConn with databaseIdResult := .error (.sdkErr "identity query failed") }

/-- `okConn` with a failing liveness ping. -/
def pingErrConn : Conn :=
  { okConn with pingResult := some (.sdkErr "ping timed out") }

/-- `okConn` with both a failing identity query and an old running version. -/
def idErrOldConn : Conn :=
  { idErrConn with versionBanner := .ok "PostgreSQL 9.6 on x86" }

/-- Evaluation of one validation pass once the ping and the pool acquire are
known to succeed: the pass reports connected, caches the identity and status
query results, runs all six operations, and returns the version-check error if
there is one, else the deferred identity-query error. -/
theorem validate_reachable_eval (ctx : Context) (conn : Conn) (dsn : String)
    (hping : conn.pingResult = none) (hacq : conn.acquireResult = none) :
    Executor.Validate ctx (fun _ => .ok conn) (New dsn) =
      ((true,
        match doValidatePostgresVersion conn MinPostgresVersion with
        | some err => some err
        | none => (GetDatabaseId conn).2),
       { dsn := dsn, dbId := (GetDatabaseId conn).1, info := GetDatabaseInfo conn },
       [Op.connect ctx.timeoutSeconds, Op.ping (some pingTimeoutSeconds),
        Op.queryDatabaseId ctx.timeoutSeconds, Op.queryDatabaseInfo ctx.timeoutSeconds,
        Op.acquire ctx.timeoutSeconds, Op.queryVersion ctx.timeoutSeconds]) := by
  unfold Executor.Validate ValidatePostgresConnection ValidatePostgresVersion
  simp only [contextWithTimeout, hping, hacq, New]
  cases hv : doValidatePostgresVersion conn MinPostgresVersion <;>
    simp [hv, GetDatabaseId]

/-- C1 (counterexample): on a pass where the ping succeeds, the identity query
fails, and the version check passes, the code DOES raise the identity-query
error to the caller: `Validate` returns it (paired with connected=true) as the
error result of the pass, contradicting the claim that the error is not raised
to the caller as the result of the validation pass. -/
theorem validate_id_error_is_returned_cex :
    (Executor.Validate ambientCtx (fun _ => .ok idErrConn) (New "dsn")).1 =
      (true, some (GoError.sdkErr "identity query failed")) ∧
    (Executor.Validate ambientCtx (fun _ => .ok idErrConn) (New "dsn")).1.2 ≠
      none := by
  decide

/-- C1 (amended): on a pass where the ping succeeds, the identity query errors,
and the version check passes, the gate reports connected=true, `Identifier`
reports the identity as absent (present=false), and the identity-query error is
deferred to the end of the pass and returned as the error result of the pass. -/
theorem validate_id_error_connected_absent (ctx : Context) (conn : Conn)
    (dsn : String) (eId : GoError)
    (hping : conn.pingResult = none)
    (hid : conn.databaseIdResult = .error eId)
    (hacq : conn.acquireResult = none)
    (hver : doValidatePostgresVersion conn MinPostgresVersion = none) :
    (Executor.Validate ctx (fun _ => .ok conn) (New dsn)).1 = (true, some eId) ∧
    Executor.Identifier
      (Executor.Validate ctx (fun _ => .ok conn) (New dsn)).2.1 = ("", false) := by
  rw [validate_reachable_eval ctx conn dsn hping hacq]
  simp [hver, GetDatabaseId, hid, Executor.Identifier]

/-- C1 witness: the amended theorem at the concrete failing-identity conn. -/
theorem validate_id_error_connected_absent_wit :
    (Executor.Validate ambientCtx (fun _ => .ok idErrConn) (New "dsn")).1 =
      (true, some (GoError.sdkErr "identity query failed")) ∧
    Executor.Identifier
      (Executor.Validate ambientCtx (fun _ => .ok idErrConn) (New "dsn")).2.1 =
      ("", false) :=
  validate_id_error_connected_absent ambientCtx idErrConn "dsn"
    (GoError.sdkErr "identity query failed") rfl rfl rfl (by decide)

/-- C2: when the liveness ping fails, the pass returns connected=false with
the ping error, the executor's cached identity and status fields stay at their
zero values, and the trace shows the identity, status, acquire and version
queries were never attempted (only connect and ping ran). -/
theorem validate_unreachable_short_circuits (ctx : Context) (conn : Conn)
    (dsn : String) (e : GoError)
    (hping : conn.pingResult = some e) :
    (Executor.Validate ctx (fun _ => .ok conn) (New dsn)).1 = (false, some e) ∧
    (Executor.Validate ctx (fun _ => .ok conn) (New dsn)).2.1 = New dsn ∧
    (New dsn).dbId = "" ∧
    (New dsn).info = { Version := "", Uptime := 0, FullVersion := "" } ∧
    (Executor.Validate ctx (fun _ => .ok conn) (New dsn)).2.2 =
      [Op.connect ctx.timeoutSeconds, Op.ping (some pingTimeoutSeconds)] := by
  unfold Executor.Validate ValidatePostgresConnection
  simp [contextWithTimeout, hping, New]

/-- C2 witness: the short-circuit theorem at the concrete unreachable conn. -/
theorem validate_unreachable_short_circuits_wit :
    (Executor.Validate ambientCtx (fun _ => .ok pingErrConn) (New "dsn")).1 =
      (false, some (GoError.sdkErr "ping timed out")) ∧
    (Executor.Validate ambientCtx (fun _ => .ok pingErrConn) (New "dsn")).2.1 =
      New "dsn" ∧
    (New "dsn").dbId = "" ∧
    (New "dsn").info = { Version := "", Uptime := 0, FullVersion := "" } ∧
    (Executor.Validate ambientCtx (fun _ => .ok pingErrConn) (New "dsn")).2.2 =
      [Op.connect none, Op.ping (some pingTimeoutSeconds)] :=
  validate_unreachable_short_circuits ambientCtx pingErrConn "dsn"
    (GoError.sdkErr "ping timed out") rfl

/-- C3: when the store is reachable but the running version is strictly below
the minimum, the pass reports connected=true together with the
version-incompatibility error (distinct from the connected=false unreachable
outcome), and the identity and status caches are populated before the version
check. -/
theorem validate_old_version_connected (ctx : Context) (conn : Conn)
    (dsn id : String) (info : DatabaseInfo) (got : List Nat)
    (hping : conn.pingResult = none)
    (hid : conn.databaseIdResult = .ok id)
    (hinfo : conn.databaseInfoResult = .ok info)
    (hacq : conn.acquireResult = none)
    (hgot : runningPostgresVersion conn = .ok got)
    (hlt : versionLessThan got MinPostgresVersion = true) :
    (Executor.Validate ctx (fun _ => .ok conn) (New dsn)).1 =
      (true, some (.unsupportedVersion got MinPostgresVersion)) ∧
    (Executor.Validate ctx (fun _ => .ok conn) (New dsn)).2.1.dbId = id ∧
    (Executor.Validate ctx (fun _ => .ok conn) (New dsn)).2.1.info = info := by
  rw [validate_reachable_eval ctx conn dsn hping hacq]
  simp [doValidatePostgresVersion, hgot, hlt, GetDatabaseId, hid,
    GetDatabaseInfo, hinfo]

/-- C3 witness: running "9.6" against minimum "10.0" on an otherwise healthy
connection gives connected=true plus the incompatible-version error. -/
theorem validate_old_version_connected_wit :
    (Executor.Validate ambientCtx
        (fun _ => .ok (bannerConn "PostgreSQL 9.6 on x86")) (New "dsn")).1 =
      (true, some (.unsupportedVersion [9, 6] MinPostgresVersion)) ∧
    (Executor.Validate ambientCtx
        (fun _ => .ok (bannerConn "PostgreSQL 9.6 on x86")) (New "dsn")).2.1.dbId =
      "7001" ∧
    (Executor.Validate ambientCtx
        (fun _ => .ok (bannerConn "PostgreSQL 9.6 on x86")) (New "dsn")).2.1.info =
      { Version := "13.4", Uptime := 5, FullVersion := "PostgreSQL 13.4 on x86" } :=
  validate_old_version_connected ambientCtx (bannerConn "PostgreSQL 9.6 on x86")
    "dsn" "7001"
    { Version := "13.4", Uptime := 5, FullVersion := "PostgreSQL 13.4 on x86" }
    [9, 6] rfl rfl rfl rfl (by decide) (by decide)

/-- C4 (counterexample): on the banner "9.6 10.0" the code parses the SECOND
whitespace-delimited token, yielding version [10, 0]; parsing the leading
token "9.6", as the claim states, would yield [9, 6] — a different version.
So the claim that parsing extracts the leading token is false. -/
theorem running_version_not_leading_token_cex :
    runningPostgresVersion (bannerConn "9.6 10.0") = .ok [10, 0] ∧
    stringFields "9.6 10.0" = ["9.6", "10.0"] ∧
    parseVersion "9.6" = .ok [9, 6] ∧
    runningPostgresVersion (bannerConn "9.6 10.0") ≠ parseVersion "9.6" := by
  decide

/-- C4 (amended): for every banner the status query returns: if it has fewer
than two whitespace-delimited fields, parsing fails with the
UnparsableVersionOutput error; otherwise parsing extracts the SECOND
whitespace-delimited token of the banner, ignores the remainder, and parses
that token as the version. -/
theorem running_version_second_token (conn : Conn) (banner : String)
    (hban : conn.versionBanner = .ok banner) :
    ((stringFields banner).length < 2 →
      runningPostgresVersion conn = .error (.unparsableVersionOutput banner)) ∧
    (∀ f0 f1 rest, stringFields banner = f0 :: f1 :: rest →
      runningPostgresVersion conn = parseVersion f1) := by
  constructor
  · intro hlen
    simp [runningPostgresVersion, hban, hlen]
  · intro f0 f1 rest hfields
    simp [runningPostgresVersion, hban, hfields]

/-- C4 witness: the amended theorem at the banner "PostgreSQL 13.4 on x86",
whose second field "13.4" is the parsed version. -/
theorem running_version_second_token_wit :
    runningPostgresVersion (bannerConn "PostgreSQL 13.4 on x86") =
      parseVersion "13.4" :=
  (running_version_second_token (bannerConn "PostgreSQL 13.4 on x86")
      "PostgreSQL 13.4 on x86" rfl).2 "PostgreSQL" "13.4" ["on", "x86"]
    (by decide)

/-- C5: the resolver hands the registry parser exactly the fallback name when
the requested source is nil or empty, source/name when the source has no
separator, and the source unchanged otherwise; in particular resolving
(nil, "aws") gives the default-org pair, ("myorg", "aws") gives (myorg, aws),
("myorg/aws2", "aws") gives (myorg, aws2), and ("a/b/c", "aws") fails with
InvalidProviderReference. -/
theorem parse_provider_source_spec (src : Option String) (name : String)
    (hname : name ≠ "") :
    ((src = none ∨ src = some "") →
      ParseProviderSource { Name := name, Source := src } =
        ParseProviderName name) ∧
    (∀ s, src = some s → s ≠ "" → s.toList.contains '/' = false →
      ParseProviderSource { Name := name, Source := src } =
        ParseProviderName (s ++ "/" ++ name)) ∧
    (∀ s, src = some s → s ≠ "" → s.toList.contains '/' = true →
      ParseProviderSource { Name := name, Source := src } =
        ParseProviderName s) ∧
    ParseProviderSource { Name := "aws", Source := none } =
      .ok (defaultOrganization, "aws") ∧
    ParseProviderSource { Name := "aws", Source := some "myorg" } =
      .ok ("myorg", "aws") ∧
    ParseProviderSource { Name := "aws", Source := some "myorg/aws2" } =
      .ok ("myorg", "aws2") ∧
    ParseProviderSource { Name := "aws", Source := some "a/b/c" } =
      .error (.invalidProviderReference "a/b/c") := by
  refine ⟨?_, ?_, ?_, by decide, by decide, by decide, by decide⟩
  · rintro (h | h) <;> subst h <;> simp [ParseProviderSource]
  · intro s hs hne hnc
    subst hs
    have hnc2 : ¬ ('/' ∈ s.data) := by simpa using hnc
    simp [ParseProviderSource, beq_iff_eq, hne, hnc2]
  · intro s hs hne hc
    subst hs
    have hc2 : '/' ∈ s.data := by simpa using hc
    simp [ParseProviderSource, beq_iff_eq, hne, hc2]

/-- C5 witness: the resolver theorem applied at name "aws" with an
organization-only source. -/
theorem parse_provider_source_spec_wit :
    ParseProviderSource { Name := "aws", Source := some "myorg" } =
      ParseProviderName ("myorg" ++ "/" ++ "aws") :=
  (parse_provider_source_spec (some "myorg") "aws" (by decide)).2.1 "myorg"
    rfl (by decide) (by decide)

/-- C6: whenever the status query errors, `GetDatabaseInfo` swallows the error
and returns exactly the sentinel status; its return type carries no error, so
it can never fail the caller. -/
theorem database_info_sentinel (conn : Conn) (e : GoError)
    (h : conn.databaseInfoResult = .error e) :
    GetDatabaseInfo conn =
      { Version := "unknown", Uptime := 0, FullVersion := "unknown" } := by
  simp [GetDatabaseInfo, h]

/-- C6 witness: the sentinel theorem at a concrete failing status query. -/
theorem database_info_sentinel_wit :
    GetDatabaseInfo { okConn with databaseInfoResult := .error (.sdkErr "q") } =
      { Version := "unknown", Uptime := 0, FullVersion := "unknown" } :=
  database_info_sentinel
    { okConn with databaseInfoResult := .error (.sdkErr "q") }
    (.sdkErr "q") rfl

/-- `okConn` whose identity query succeeds but returns the empty string. -/
def emptyIdConn : Conn := { okConn with databaseIdResult := .ok "" }

/-- C7: version comparison is numeric dot-delimited tuple ordering (compare
component by component left to right, missing trailing components read as
zero), comparison is reflexive, and consequently the version validation
returns no error when the running version equals the wanted minimum. -/
theorem version_tuple_order_reflexive :
    (∀ v : List Nat, versionCompare v v = .eq) ∧
    (∀ v : List Nat, versionLessThan v v = false) ∧
    (∀ (a b : Nat) (as bs : List Nat), a < b →
      versionCompare (a :: as) (b :: bs) = .lt) ∧
    (∀ (a : Nat) (as bs : List Nat),
      versionCompare (a :: as) (a :: bs) = versionCompare as bs) ∧
    (∀ v : List Nat, versionCompare v (v ++ [0]) = .eq) ∧
    (∀ (conn : Conn) (want : List Nat),
      runningPostgresVersion conn = .ok want →
      doValidatePostgresVersion conn want = none) := by
  have hrefl : ∀ v : List Nat, versionCompare v v = .eq := by
    intro v
    induction v with
    | nil => rfl
    | cons a as ih => simp [versionCompare, ih]
  refine ⟨hrefl, ?_, ?_, ?_, ?_, ?_⟩
  · intro v
    simp [versionLessThan, hrefl]
    decide
  · intro a b as bs h
    simp [versionCompare, h]
  · intro a as bs
    simp [versionCompare]
  · intro v
    induction v with
    | nil => decide
    | cons a as ih => simp [versionCompare, ih]
  · intro conn want h
    simp [doValidatePostgresVersion, h, versionLessThan, hrefl]
    decide

/-- C7 witness: validating the running version 13.4 against wanted minimum
13.4 (the version the healthy connection reports) raises no error. -/
theorem version_tuple_order_reflexive_wit :
    doValidatePostgresVersion okConn [13, 4] = none :=
  version_tuple_order_reflexive.2.2.2.2.2 okConn [13, 4] (by decide)

/-- C8: the ping is the only gate operation executed under an explicit
timeout and that timeout is fixed at 10 seconds: the probe derives a child
context with a 10-second timeout, cancels it on exit, and in the trace of any
validation pass under an ambient context with no explicit timeout, the ping
op carries timeout 10 while every other op carries none. -/
theorem ping_timeout_unique (ctx : Context) (conn : Conn) (dsn : String)
    (hctx : ctx.timeoutSeconds = none) :
    pingTimeoutSeconds = 10 ∧
    ((ValidatePostgresConnection ctx conn).pingOp).timeout = some 10 ∧
    (ValidatePostgresConnection ctx conn).cancelled = true ∧
    (∀ op ∈ (Executor.Validate ctx (fun _ => .ok conn) (New dsn)).2.2,
      Op.timeout op = if Op.isPing op then some 10 else none) := by
  obtain ⟨t⟩ := ctx
  have ht : t = none := hctx
  subst ht
  refine ⟨rfl, rfl, rfl, ?_⟩
  intro op hop
  cases hping : conn.pingResult with
  | some e =>
    unfold Executor.Validate ValidatePostgresConnection at hop
    simp only [contextWithTimeout, hping, List.mem_cons,
      List.not_mem_nil, or_false] at hop
    rcases hop with rfl | rfl <;> rfl
  | none =>
    cases hacq : conn.acquireResult with
    | some e =>
      unfold Executor.Validate ValidatePostgresConnection
        ValidatePostgresVersion at hop
      simp only [contextWithTimeout, hping, hacq, List.cons_append,
        List.nil_append, List.mem_cons, List.not_mem_nil, or_false] at hop
      rcases hop with rfl | rfl | rfl | rfl | rfl <;> rfl
    | none =>
      rw [validate_reachable_eval { timeoutSeconds := none } conn dsn
        hping hacq] at hop
      simp only [List.mem_cons, List.not_mem_nil, or_false] at hop
      rcases hop with rfl | rfl | rfl | rfl | rfl | rfl <;> rfl

/-- C8 witness: the timeout theorem at the healthy connection under the
ambient context. -/
theorem ping_timeout_unique_wit :
    pingTimeoutSeconds = 10 ∧
    ((ValidatePostgresConnection ambientCtx okConn).pingOp).timeout =
      some 10 ∧
    (ValidatePostgresConnection ambientCtx okConn).cancelled = true ∧
    (∀ op ∈ (Executor.Validate ambientCtx (fun _ => .ok okConn)
        (New "dsn")).2.2,
      Op.timeout op = if Op.isPing op then some 10 else none) :=
  ping_timeout_unique ambientCtx okConn "dsn" rfl

/-- C9: when the ping succeeds and the identity query fails, the pass returns
the version-incompatibility error whenever the version check fails (the
identity error is discarded from the result), and returns the identity error
only when the version check succeeds. -/
theorem version_error_shadows_identity_error (ctx : Context) (conn : Conn)
    (dsn : String) (eId eV : GoError)
    (hping : conn.pingResult = none)
    (hid : conn.databaseIdResult = .error eId)
    (hacq : conn.acquireResult = none) :
    (doValidatePostgresVersion conn MinPostgresVersion = some eV →
      (Executor.Validate ctx (fun _ => .ok conn) (New dsn)).1 =
        (true, some eV)) ∧
    (doValidatePostgresVersion conn MinPostgresVersion = none →
      (Executor.Validate ctx (fun _ => .ok conn) (New dsn)).1 =
        (true, some eId)) := by
  constructor
  · intro hv
    rw [validate_reachable_eval ctx conn dsn hping hacq]
    simp [hv]
  · intro hv
    rw [validate_reachable_eval ctx conn dsn hping hacq]
    simp [hv, GetDatabaseId, hid]

/-- C9 witness: a connection with a failing identity query and an old running
version returns the version error, not the identity error. -/
theorem version_error_shadows_identity_error_wit :
    (Executor.Validate ambientCtx (fun _ => .ok idErrOldConn) (New "dsn")).1 =
      (true, some (.unsupportedVersion [9, 6] MinPostgresVersion)) :=
  (version_error_shadows_identity_error ambientCtx idErrOldConn "dsn"
      (.sdkErr "identity query failed")
      (.unsupportedVersion [9, 6] MinPostgresVersion) rfl rfl rfl).1
    (by decide)

/-- C10: `Identifier` reports presence solely by comparing the cached dbId
against the empty string and performs no queries: it returns ("", false) on a
fresh executor, ("", false) whenever the cached dbId is "" — including after a
pass whose identity query succeeded with the empty string — and (dbId, true)
otherwise. -/
theorem identifier_presence_from_cache (dsn : String) (e : Executor)
    (ctx : Context) (conn : Conn) :
    Executor.Identifier (New dsn) = ("", false) ∧
    (e.dbId = "" → Executor.Identifier e = ("", false)) ∧
    (e.dbId ≠ "" → Executor.Identifier e = (e.dbId, true)) ∧
    (conn.pingResult = none → conn.acquireResult = none →
      conn.databaseIdResult = .ok "" →
      Executor.Identifier
        (Executor.Validate ctx (fun _ => .ok conn) (New dsn)).2.1 =
        ("", false)) := by
  refine ⟨rfl, ?_, ?_, ?_⟩
  · intro h
    simp [Executor.Identifier, h]
  · intro h
    simp [Executor.Identifier, beq_iff_eq, h]
  · intro hping hacq hid
    rw [validate_reachable_eval ctx conn dsn hping hacq]
    simp [Executor.Identifier, GetDatabaseId, hid]

/-- C10 witness: after a pass whose identity query succeeds with the empty
string, `Identifier` still reports absence. -/
theorem identifier_presence_from_cache_wit :
    Executor.Identifier
      (Executor.Validate ambientCtx (fun _ => .ok emptyIdConn)
        (New "dsn")).2.1 = ("", false) :=
  (identifier_presence_from_cache "dsn" (New "dsn") ambientCtx
      emptyIdConn).2.2.2 rfl rfl rfl

end CloudQuery
